import Mathlib

/-!
Verification of the youtube-analysis repository: a shallow embedding of the
orchestration pipeline (modelled from the spec, since the backend pipeline
sources are not part of the checked tree) and of the frontend presentation
logic (`frontend/src/api.ts`, `frontend/src/pages/JobDetail.tsx`,
`frontend/src/pages/NewAnalysis.tsx`), together with theorems settling the
spec's claims about them.
-/

namespace YTA

/-! ## Data model -/

/-- Lifecycle status of a Job, from the `Job` interface in `api.ts`
(`'pending' | 'running' | 'completed' | 'failed'`). -/
inductive JobStatus where
  | pending
  | running
  | completed
  | failed
deriving DecidableEq, Repr

/-- Modelled from the spec: one discovered video (spec section 3,
"VideoCandidate — one discovered video: id, title, channel name, publish
date, view count, raw description"). -/
structure VideoCandidate where
  id : String
  title : String
  channelName : String
  publishDate : String
  viewCount : Nat
  description : String
deriving DecidableEq, Repr

/-- Source tag of a Transcript (spec section 3: `caption|whisper|none`). -/
inductive TranscriptSource where
  | caption
  | whisper
  | none
deriving DecidableEq, Repr

/-- Modelled from the spec: optional text blob per video, tagged with its
source; absence is a valid terminal state. -/
structure Transcript where
  text : Option String
  source : TranscriptSource
deriving DecidableEq, Repr

/-! ## VideoDiscovery de-duplication (spec section 4.1)

Modelled from the spec: "De-duplication key is the video id; first
occurrence across queries wins."  The backend discovery source is not in
the checked tree, so the merge is modelled directly from those words. -/

/-- Modelled from the spec: keep the first occurrence of every video id,
dropping later candidates that share an id with an earlier one. -/
def dedupeCandidates : List VideoCandidate → List VideoCandidate
  | [] => []
  | c :: rest => c :: (dedupeCandidates rest).filter (fun d => d.id != c.id)

/-- Modelled from the spec: the merged candidate sequence over the per-query
result lists, de-duplicated by video id with first occurrence winning. -/
def mergeQueryResults (perQuery : List (List VideoCandidate)) : List VideoCandidate :=
  dedupeCandidates perQuery.flatten

/-! ## Orchestration pipeline (modelled from the spec)

The backend sources (`backend/app.py` and the `src/` pipeline modules named
in the README) are not part of the checked tree; everything below is
modelled from the spec, sections 3 to 7. -/

/-- Modelled from the spec: the Job record of spec section 3 (id, status,
counters, progress message, terminal error, output artifact reference), with
the field names used by the frontend (`api.ts` Job interface plus the
`progress_message` and `videos_transcribed` fields read by `JobDetail.tsx`). -/
structure Job where
  id : String
  status : JobStatus
  videosFound : Nat
  commentsCollected : Nat
  videosAnalyzed : Nat
  videosTranscribed : Nat
  progressMessage : String
  error : Option String
  reportFilename : Option String
deriving DecidableEq, Repr

/-- Modelled from the spec: the submission options of spec section 6. -/
structure PipelineOptions where
  skipTranscription : Bool
  maxVideos : Nat
  maxVideosToTranscribe : Nat
  dateFrom : Option String
  dateTo : Option String
  regionCode : Option String
  useExistingSubtitles : Bool
deriving DecidableEq, Repr

/-- Modelled from the spec: one video's structured findings as produced by
ContentAnalyzer (spec section 3, AnalysisRecord). -/
structure AnalysisCore where
  sentiment : String
  sentimentScore : Int
  strengths : List String
  weaknesses : List String
  competitors : List String
  verdict : String
deriving DecidableEq, Repr

/-- Provenance of an AnalysisRecord: which inputs were available. -/
inductive Provenance where
  | commentsOnly
  | commentsAndTranscript
deriving DecidableEq, Repr

/-- Modelled from the spec: AnalysisRecord with provenance and a flag for a
per-video partial failure of the AI analysis (spec section 4.4). -/
structure AnalysisRecord where
  videoId : String
  core : AnalysisCore
  provenance : Provenance
  partialFailure : Bool
deriving DecidableEq, Repr

/-- Default/empty substructures used for a per-video analysis failure
(spec section 4.4). -/
def defaultCore : AnalysisCore :=
  ⟨"neutral", 0, [], [], [], ""⟩

/-- Modelled from the spec: the outcome every external capability would
give for one video (comment fetch, caption retrieval, audio download,
speech-to-text, AI analysis), each with its own error surface
(spec section 6). -/
structure VideoEnv where
  comments : Except String (List String)
  caption : Option String
  audioDownload : Except String Unit
  speechToText : Except String String
  analysis : Except String AnalysisCore

/-- Modelled from the spec: the external world one pipeline run interacts
with — the video-search capability per query and the per-video
capabilities. -/
structure PipelineEnv where
  search : String → Except String (List VideoCandidate)
  video : String → VideoEnv

/-- Configured cap on comments per video (spec section 3, CommentSet
"capped at a configured maximum"). -/
def maxCommentsPerVideo : Nat := 100

/-- Modelled from the spec: CommentCollector (spec section 4.2) — an API
failure for a single video is caught and recorded as an empty CommentSet. -/
def collectComments (e : VideoEnv) : List String :=
  match e.comments with
  | .ok cs => cs.take maxCommentsPerVideo
  | .error _ => []

/-- Transcript value for a video that was not, or could not be,
transcribed. -/
def noTranscript : Transcript :=
  ⟨Option.none, TranscriptSource.none⟩

/-- Modelled from the spec: the audio path of TranscriptionService
(spec section 4.3) — download the audio track, then run local
speech-to-text; any failure degrades to `Transcript{source: none}`. -/
def runWhisperPath (e : VideoEnv) : Transcript :=
  match e.audioDownload with
  | .error _ => noTranscript
  | .ok _ =>
    match e.speechToText with
    | .ok t => ⟨some t, TranscriptSource.whisper⟩
    | .error _ => noTranscript

/-- Modelled from the spec: TranscriptionService for one video
(spec section 4.3) — if "use existing subtitles" is enabled, attempt
caption retrieval first; on caption miss or when subtitles are disabled,
take the audio/speech-to-text path. -/
def transcribeVideo (useSubs : Bool) (e : VideoEnv) : Transcript :=
  if useSubs then
    match e.caption with
    | some t => ⟨some t, TranscriptSource.caption⟩
    | Option.none => runWhisperPath e
  else runWhisperPath e

/-- Modelled from the spec: the transcription stage (spec section 4.3) —
skipped entirely when `skip_transcription` is set; otherwise only the
first `max_videos_to_transcribe` videos are attempted and videos beyond
the cap proceed with no transcript. -/
def transcribeStage (opts : PipelineOptions) (videoEnv : String → VideoEnv)
    (selected : List VideoCandidate) : List Transcript :=
  if opts.skipTranscription then
    selected.map (fun _ => noTranscript)
  else
    (selected.take opts.maxVideosToTranscribe).map
      (fun v => transcribeVideo opts.useExistingSubtitles (videoEnv v.id))
    ++ (selected.drop opts.maxVideosToTranscribe).map (fun _ => noTranscript)

/-- Modelled from the spec: ContentAnalyzer for one video
(spec section 4.4) — a per-video AI failure yields an AnalysisRecord with
default/empty substructures and a flag, never an exception; provenance
records whether a transcript contributed. -/
def analyzeVideo (e : VideoEnv) (v : VideoCandidate) (t : Transcript) :
    AnalysisRecord :=
  let prov := if t.source = TranscriptSource.none then Provenance.commentsOnly
              else Provenance.commentsAndTranscript
  match e.analysis with
  | .ok core => ⟨v.id, core, prov, false⟩
  | .error _ => ⟨v.id, defaultCore, prov, true⟩

/-- Modelled from the spec: the analysis stage — one AnalysisRecord per
selected video, pairing each video with its transcript. -/
def analyzeStage (videoEnv : String → VideoEnv) (selected : List VideoCandidate)
    (transcripts : List Transcript) : List AnalysisRecord :=
  (selected.zip transcripts).map (fun p => analyzeVideo (videoEnv p.1.id) p.1 p.2)

/-- Modelled from the spec: per-query discovery (spec section 4.1) — a
failing query logs and is skipped (contributes nothing), a successful
query contributes its results capped at `max_videos`. -/
def discoveredPerQuery (env : PipelineEnv) (opts : PipelineOptions)
    (queries : List String) : List (List VideoCandidate) :=
  queries.map (fun q =>
    match env.search q with
    | .ok vs => vs.take opts.maxVideos
    | .error _ => [])

/-- Modelled from the spec: the full discovery stage — per-query results
merged and de-duplicated, first occurrence across queries winning. -/
def discoverVideos (env : PipelineEnv) (opts : PipelineOptions)
    (queries : List String) : List VideoCandidate :=
  mergeQueryResults (discoveredPerQuery env opts queries)

/-- Job record as created on submission: pending, all counters zero, no
error, no artifact. -/
def freshJob (id : String) : Job :=
  ⟨id, JobStatus.pending, 0, 0, 0, 0, "", Option.none, Option.none⟩

/-- True when the job has reached a terminal status. -/
def Job.isTerminal (j : Job) : Bool :=
  j.status == JobStatus.completed || j.status == JobStatus.failed

/-- Artifact name written on completion. -/
def reportFilenameFor (jobId : String) : String :=
  "report_" ++ jobId ++ ".docx"

/-- Modelled from the spec: the orchestrator's run over one job
(spec section 4.6) — the fixed stage sequence, with the Job record updated
after each stage; the returned list is the sequence of Job states a poller
can observe, in order.  A discovery stage with zero videos across all
queries fails the job and halts all later stages; per-item failures in
later stages never fail the job. -/
def pipelineTrace (j : Job) (queries : List String) (opts : PipelineOptions)
    (env : PipelineEnv) : List Job :=
  let jStart := { j with status := JobStatus.running,
                         progressMessage := "Searching for videos" }
  let selected := discoverVideos env opts queries
  if selected.isEmpty then
    [j, jStart,
     { jStart with status := JobStatus.failed,
                   progressMessage := "Failed: no videos found",
                   error := some "No videos found for any search query" }]
  else
    let jFound := { jStart with
        videosFound := selected.length,
        progressMessage := "Found videos, collecting comments" }
    let commentSets := selected.map (fun v => collectComments (env.video v.id))
    let jComments := { jFound with
        commentsCollected := (commentSets.map List.length).sum,
        progressMessage := "Collected comments, transcribing audio" }
    let transcripts := transcribeStage opts env.video selected
    let jTranscribed := { jComments with
        videosTranscribed :=
          transcripts.countP (fun t => t.source != TranscriptSource.none),
        progressMessage := "Transcribed audio, analyzing content" }
    let records := analyzeStage env.video selected transcripts
    let jAnalyzed := { jTranscribed with
        videosAnalyzed := records.length,
        progressMessage := "Analyzed content, generating reports" }
    let jDone := { jAnalyzed with
        status := JobStatus.completed,
        progressMessage := "Analysis complete",
        reportFilename := some (reportFilenameFor j.id) }
    [j, jStart, jFound, jComments, jTranscribed, jAnalyzed, jDone]

/-- Modelled from the spec: invoking the pipeline on an existing Job state
(spec section 4.6) — re-invoking a job already in a terminal state is an
explicit error, never a silent re-run. -/
def startPipeline (j : Job) (queries : List String) (opts : PipelineOptions)
    (env : PipelineEnv) : Except String (List Job) :=
  if j.isTerminal then
    Except.error "job already in a terminal state"
  else
    Except.ok (pipelineTrace j queries opts env)

/-- Observable Job states of one run started from a fresh submission. -/
def runJob (id : String) (queries : List String) (opts : PipelineOptions)
    (env : PipelineEnv) : List Job :=
  pipelineTrace (freshJob id) queries opts env

/-- Final Job state of one run started from a fresh submission. -/
def finalJob (id : String) (queries : List String) (opts : PipelineOptions)
    (env : PipelineEnv) : Job :=
  (runJob id queries opts env).getLastD (freshJob id)

/-! ## Frontend presentation layer

Embedded from `frontend/src/api.ts`, `frontend/src/pages/JobDetail.tsx`
and `frontend/src/pages/NewAnalysis.tsx`. -/

/-- Substring containment: the model of JavaScript
`String.prototype.includes`. -/
def strIncludes (s sub : String) : Bool :=
  decide (List.IsInfix sub.toList s.toList)

/-- ASCII lowercasing of one character. -/
def charToLower (c : Char) : Char :=
  if 'A' ≤ c ∧ c ≤ 'Z' then Char.ofNat (c.toNat + 32) else c

/-- Model of JavaScript `String.prototype.toLowerCase`, restricted to
ASCII letters — enough for the tokens the classifier compares, and the
identity on the Korean tokens. -/
def strToLower (s : String) : String :=
  String.mk (s.toList.map charToLower)

/-- Presentation sentiment buckets used by JobDetail.tsx. -/
inductive SentimentLabel where
  | positive
  | negative
  | neutral
deriving DecidableEq, Repr

/-- Sentiment classification from JobDetail.tsx, shared verbatim by
SentimentIcon (lines 45-54) and by the sentimentStats reducer
(lines 97-106): lowercase the string, then positive when it equals
"positive" or contains "긍정", else negative when it equals "negative" or
contains "부정", else neutral. -/
def classifySentiment (sentiment : String) : SentimentLabel :=
  let s := strToLower sentiment
  if s == "positive" || strIncludes s "긍정" then SentimentLabel.positive
  else if s == "negative" || strIncludes s "부정" then SentimentLabel.negative
  else SentimentLabel.neutral

/-- JobResult record from the `api.ts` interface of the same name. -/
structure JobResult where
  resultId : Nat
  jobId : String
  videoId : String
  videoTitle : String
  channelName : String
  sentiment : String
  strengths : String
  weaknesses : String
  summary : String
deriving DecidableEq, Repr

/-- Accumulator of the sentimentStats reducer in JobDetail.tsx. -/
structure SentimentStats where
  positive : Nat
  negative : Nat
  neutral : Nat
deriving DecidableEq, Repr

/-- One step of the sentimentStats reducer (JobDetail.tsx lines 97-106):
bump exactly one bucket according to the classification of
`r.sentiment`. -/
def sentimentStep (acc : SentimentStats) (r : JobResult) : SentimentStats :=
  match classifySentiment r.sentiment with
  | SentimentLabel.positive => { acc with positive := acc.positive + 1 }
  | SentimentLabel.negative => { acc with negative := acc.negative + 1 }
  | SentimentLabel.neutral => { acc with neutral := acc.neutral + 1 }

/-- sentimentStats from JobDetail.tsx: fold the reducer over the results
starting from all-zero counts. -/
def sentimentStats (results : List JobResult) : SentimentStats :=
  results.foldl sentimentStep ⟨0, 0, 0⟩

/-- One entry of the pie-chart data in JobDetail.tsx. -/
structure PieDatum where
  name : String
  value : Nat
  color : String
deriving DecidableEq, Repr

/-- pieData from JobDetail.tsx (lines 108-112): the three fixed entries
filtered to those with a nonzero value. -/
def pieData (stats : SentimentStats) : List PieDatum :=
  [⟨"Positive", stats.positive, "#10b981"⟩,
   ⟨"Neutral", stats.neutral, "#9ca3af"⟩,
   ⟨"Negative", stats.negative, "#ef4444"⟩].filter (fun d => decide (0 < d.value))

/-- Poll interval in milliseconds from JobDetail.tsx line 72:
setInterval(loadData, 3000). -/
def pollIntervalMs : Nat := 3000

/-- Condition under which the JobDetail.tsx effect (lines 70-75) keeps an
active polling interval: status is pending or running; on any other
status the effect installs no interval and the cleanup clears the
previous one. -/
def shouldPoll (status : JobStatus) : Bool :=
  status == JobStatus.pending || status == JobStatus.running

/-- Model of the JobDetail.tsx polling loop: given the statuses the
server would return on successive fetches, the statuses the component
actually observes — it keeps re-fetching while the observed status is
pending or running and stops at the first terminal status observed. -/
def observedStatuses : List JobStatus → List JobStatus
  | [] => []
  | s :: rest => if shouldPoll s then s :: observedStatuses rest else [s]

/-- Request body sent by api.analyzePredefined (api.ts lines 231-242):
model_key, skip_transcription, max_videos. -/
structure PredefinedRequestBody where
  modelKey : String
  skipTranscription : Bool
  maxVideos : Nat
deriving DecidableEq, Repr

/-- Body construction of api.analyzePredefined. -/
def analyzePredefinedBody (modelKey : String) (skipTranscription : Bool)
    (maxVideos : Nat) : PredefinedRequestBody :=
  ⟨modelKey, skipTranscription, maxVideos⟩

/-- Request body sent by api.analyzeCustom (api.ts lines 245-260):
company, model, search_queries, skip_transcription, max_videos. -/
structure CustomRequestBody where
  company : String
  model : String
  searchQueries : Option (List String)
  skipTranscription : Bool
  maxVideos : Nat
deriving DecidableEq, Repr

/-- Body construction of api.analyzeCustom. -/
def analyzeCustomBody (company model : String) (queries : Option (List String))
    (skipTranscription : Bool) (maxVideos : Nat) : CustomRequestBody :=
  ⟨company, model, queries, skipTranscription, maxVideos⟩

/-- Form state gathered by NewAnalysis.tsx that handleSubmit
(lines 78-117) reads when submitting. -/
structure NewAnalysisForm where
  selectedModel : String
  customCompany : String
  customModel : String
  customQueries : String
  skipTranscription : Bool
  maxVideos : Nat
  dateFrom : String
  dateTo : String
  regionCode : String
  useExistingSubtitles : Bool
deriving DecidableEq, Repr

/-- Query parsing in handleSubmit (NewAnalysis.tsx lines 96-98): when the
textarea is empty the queries are null, otherwise split on newlines and
keep lines with nonempty trim. -/
def parseQueries (customQueries : String) : Option (List String) :=
  if customQueries = "" then Option.none
  else some ((customQueries.splitOn "\n").filter (fun q => q.trim != ""))

/-- Request body resulting from submitting the custom tab: handleSubmit
passes nine arguments to api.analyzeCustom, but the client declares only
five parameters (company, model, queries, skipTranscription, maxVideos),
so the POST body is built from those five alone; the remaining arguments
are dropped. -/
def submitCustomBody (f : NewAnalysisForm) : CustomRequestBody :=
  analyzeCustomBody f.customCompany f.customModel (parseQueries f.customQueries)
    f.skipTranscription f.maxVideos

/-- Request body resulting from submitting the predefined tab:
handleSubmit passes seven arguments to api.analyzePredefined, but the
client declares only three parameters (modelKey, skipTranscription,
maxVideos), so the POST body is built from those three alone. -/
def submitPredefinedBody (f : NewAnalysisForm) : PredefinedRequestBody :=
  analyzePredefinedBody f.selectedModel f.skipTranscription f.maxVideos

/-! ## Auxiliary predicates and concrete instances -/

/-- Counter comparison between two successive observable Job states: none
of the three polled counters decreases. -/
def countersMono (a b : Job) : Prop :=
  a.videosFound ≤ b.videosFound
  ∧ a.videosAnalyzed ≤ b.videosAnalyzed
  ∧ a.videosTranscribed ≤ b.videosTranscribed

/-- Modelled from the spec: the transcription attempt for one video fails
at some step — the caption path yields nothing (subtitles disabled, or a
caption miss) and the audio path fails (audio download failure, or a
decode/speech-to-text failure or timeout, both surfacing as an error of
the speech-to-text capability). -/
def transcriptionAttemptFails (e : VideoEnv) (useSubs : Bool) : Prop :=
  (useSubs = false ∨ e.caption = Option.none)
  ∧ ((∃ m, e.audioDownload = Except.error m)
      ∨ (∃ m, e.speechToText = Except.error m))

/-- Concrete candidate used in witnesses and counterexamples. -/
def cVideo : VideoCandidate :=
  ⟨"v1", "review", "channel", "2024-05-01", 1000, "desc"⟩

/-- Concrete per-video environment where every capability succeeds. -/
def cVideoEnv : VideoEnv :=
  ⟨Except.ok ["nice car"], some "caption text", Except.ok (),
    Except.ok "spoken text", Except.ok defaultCore⟩

/-- Concrete pipeline environment: every search query returns one video,
every per-video capability succeeds. -/
def cEnv : PipelineEnv :=
  ⟨fun _ => Except.ok [cVideo], fun _ => cVideoEnv⟩

/-- Concrete options: transcription enabled with cap 1, subtitles used. -/
def cOpts : PipelineOptions :=
  ⟨false, 5, 1, Option.none, Option.none, Option.none, true⟩

/-- Concrete pipeline environment where every capability fails. -/
def emptyEnv : PipelineEnv :=
  ⟨fun _ => Except.error "quota exceeded", fun _ =>
    ⟨Except.error "api error", Option.none, Except.error "api error",
      Except.error "api error", Except.error "api error"⟩⟩

/-- Concrete per-video environment whose transcription attempt fails:
caption miss and audio download failure, everything else fine. -/
def cFailVideoEnv : VideoEnv :=
  ⟨Except.ok ["great"], Option.none, Except.error "download failed",
    Except.ok "spoken text", Except.ok defaultCore⟩

/-- Concrete pipeline environment around `cFailVideoEnv`. -/
def cFailEnv : PipelineEnv :=
  ⟨fun _ => Except.ok [cVideo], fun _ => cFailVideoEnv⟩

/-- Concrete Job already in its terminal completed state. -/
def doneJob : Job :=
  ⟨"t1", JobStatus.completed, 3, 10, 3, 1, "Analysis complete",
    Option.none, some "report_t1.docx"⟩

/-- Concrete form state without the optional filter options. -/
def formA : NewAnalysisForm :=
  ⟨"scenic", "Renault", "Scenic", "", true, 20, "", "", "", false⟩

/-- Concrete form state equal to `formA` except in the filter options
(date range, region code, subtitles toggle). -/
def formB : NewAnalysisForm :=
  ⟨"scenic", "Renault", "Scenic", "", true, 20, "2024-01-01", "2024-12-31",
    "KR", true⟩

/-! ## Helper lemmas -/

theorem mem_of_mem_dedupe {c : VideoCandidate} :
    ∀ {l : List VideoCandidate}, c ∈ dedupeCandidates l → c ∈ l := by
  intro l
  induction l with
  | nil => intro h; simp [dedupeCandidates] at h
  | cons a rest ih =>
    intro h
    rw [dedupeCandidates] at h
    rcases List.mem_cons.mp h with h | h
    · exact h ▸ List.mem_cons_self _ _
    · exact List.mem_cons_of_mem _ (ih (List.mem_of_mem_filter h))

theorem countP_dedupe (l : List VideoCandidate) (i : String) :
    (dedupeCandidates l).countP (fun d => d.id == i)
      = if l.any (fun d => d.id == i) then 1 else 0 := by
  induction l with
  | nil => simp [dedupeCandidates]
  | cons a rest ih =>
    rw [dedupeCandidates]
    by_cases hai : a.id = i
    · have hzero : ((dedupeCandidates rest).filter (fun d => d.id != a.id)).countP
          (fun d => d.id == i) = 0 := by
        rw [List.countP_eq_zero]
        intro d hd
        have := List.of_mem_filter hd
        simp only [bne_iff_ne, ne_eq] at this
        simp only [beq_iff_eq]
        exact fun h => this (h.trans hai.symm)
      rw [List.countP_cons_of_pos _ _ (by simp [hai]), hzero]
      simp [hai]
    · rw [List.countP_cons_of_neg _ _ (by simp [hai]), List.countP_filter]
      have heq : (fun d : VideoCandidate => (d.id == i) && (d.id != a.id))
          = (fun d => d.id == i) := by
        funext d
        by_cases hdi : d.id = i
        · simp [hdi, Ne.symm hai]
        · simp [hdi]
      rw [heq, ih]
      simp [List.any_cons, hai]

theorem find?_filter_of_imp (l : List VideoCandidate) (p q : VideoCandidate → Bool)
    (h : ∀ x, p x = true → q x = true) :
    (l.filter q).find? p = l.find? p := by
  induction l with
  | nil => rfl
  | cons a rest ih =>
    by_cases hpa : p a = true
    · rw [List.filter_cons_of_pos (h a hpa), List.find?_cons_of_pos _ hpa,
        List.find?_cons_of_pos _ hpa]
    · by_cases hqa : q a = true
      · rw [List.filter_cons_of_pos hqa, List.find?_cons_of_neg _ hpa,
          List.find?_cons_of_neg _ hpa, ih]
      · rw [List.filter_cons_of_neg hqa, List.find?_cons_of_neg _ hpa, ih]

theorem find?_dedupe (l : List VideoCandidate) (i : String) :
    (dedupeCandidates l).find? (fun d => d.id == i)
      = l.find? (fun d => d.id == i) := by
  induction l with
  | nil => simp [dedupeCandidates]
  | cons a rest ih =>
    rw [dedupeCandidates]
    by_cases hai : a.id = i
    · rw [List.find?_cons_of_pos, List.find?_cons_of_pos] <;> simp [hai]
    · rw [List.find?_cons_of_neg, List.find?_cons_of_neg,
        find?_filter_of_imp, ih]
      · intro x hx
        simp only [beq_iff_eq] at hx
        simp [hx, Ne.symm hai]
      · simp [hai]
      · simp [hai]

theorem dedupe_eq_nil_iff (l : List VideoCandidate) :
    dedupeCandidates l = [] ↔ l = [] := by
  cases l with
  | nil => simp [dedupeCandidates]
  | cons a rest => rw [dedupeCandidates]; simp

theorem transcribeStage_length (opts : PipelineOptions)
    (videoEnv : String → VideoEnv) (selected : List VideoCandidate) :
    (transcribeStage opts videoEnv selected).length = selected.length := by
  unfold transcribeStage
  by_cases h : opts.skipTranscription = true
  · simp [h]
  · simp [h]
    omega

theorem transcribeStage_countP_le (opts : PipelineOptions)
    (videoEnv : String → VideoEnv) (selected : List VideoCandidate) :
    (transcribeStage opts videoEnv selected).countP
        (fun t => t.source != TranscriptSource.none)
      ≤ opts.maxVideosToTranscribe := by
  unfold transcribeStage
  by_cases h : opts.skipTranscription = true
  · rw [if_pos h, List.countP_map]
    simp [Function.comp_def, noTranscript]
  · rw [if_neg h, List.countP_append]
    have h1 : ((selected.take opts.maxVideosToTranscribe).map
        (fun v => transcribeVideo opts.useExistingSubtitles (videoEnv v.id))).countP
        (fun t => t.source != TranscriptSource.none)
        ≤ ((selected.take opts.maxVideosToTranscribe).map
          (fun v => transcribeVideo opts.useExistingSubtitles (videoEnv v.id))).length :=
      List.countP_le_length _
    have h2 : ((selected.drop opts.maxVideosToTranscribe).map
        (fun _ => noTranscript)).countP
        (fun t => t.source != TranscriptSource.none) = 0 := by
      rw [List.countP_map]
      simp [Function.comp_def, noTranscript]
    rw [List.length_map, List.length_take] at h1
    omega

theorem analyzeStage_length (videoEnv : String → VideoEnv)
    (selected : List VideoCandidate) (transcripts : List Transcript) :
    (analyzeStage videoEnv selected transcripts).length
      = min selected.length transcripts.length := by
  unfold analyzeStage
  simp

theorem runWhisperPath_of_fail (e : VideoEnv)
    (h : (∃ m, e.audioDownload = Except.error m)
        ∨ (∃ m, e.speechToText = Except.error m)) :
    runWhisperPath e = noTranscript := by
  unfold runWhisperPath
  rcases h with ⟨m, hm⟩ | ⟨m, hm⟩
  · rw [hm]
  · cases ha : e.audioDownload with
    | error _ => rfl
    | ok _ => rw [hm]

theorem transcribeVideo_of_fails (useSubs : Bool) (e : VideoEnv)
    (h : transcriptionAttemptFails e useSubs) :
    transcribeVideo useSubs e = noTranscript := by
  have hwh := runWhisperPath_of_fail e h.2
  unfold transcribeVideo
  cases hsubs : useSubs with
  | false => simpa using hwh
  | true =>
    rcases h.1 with hfalse | hnone
    · rw [hsubs] at hfalse; cases hfalse
    · rw [hnone]
      simpa using hwh

theorem analyzeVideo_provenance_noTranscript (e : VideoEnv) (v : VideoCandidate) :
    (analyzeVideo e v noTranscript).provenance = Provenance.commentsOnly := by
  unfold analyzeVideo noTranscript
  cases h : e.analysis <;> simp [h]

theorem finalJob_status_of_nonempty (id : String) (queries : List String)
    (opts : PipelineOptions) (env : PipelineEnv)
    (h : discoverVideos env opts queries ≠ []) :
    (finalJob id queries opts env).status = JobStatus.completed := by
  unfold finalJob runJob pipelineTrace
  rw [if_neg (by simpa using h)]
  simp [List.getLastD_cons]

theorem pieData_names (st : SentimentStats) :
    ("Positive" ∈ (pieData st).map PieDatum.name ↔ 0 < st.positive)
    ∧ ("Neutral" ∈ (pieData st).map PieDatum.name ↔ 0 < st.neutral)
    ∧ ("Negative" ∈ (pieData st).map PieDatum.name ↔ 0 < st.negative) := by
  obtain ⟨p, n, g⟩ := st
  unfold pieData
  rcases Nat.eq_zero_or_pos p with hp | hp <;>
    rcases Nat.eq_zero_or_pos n with hn | hn <;>
    rcases Nat.eq_zero_or_pos g with hg | hg <;>
    simp_all [List.filter]

theorem sentimentStats_foldl_sum (results : List JobResult)
    (acc : SentimentStats) :
    (results.foldl sentimentStep acc).positive
      + (results.foldl sentimentStep acc).negative
      + (results.foldl sentimentStep acc).neutral
    = acc.positive + acc.negative + acc.neutral + results.length := by
  induction results generalizing acc with
  | nil => simp
  | cons r rest ih =>
    rw [List.foldl_cons, ih]
    unfold sentimentStep
    cases classifySentiment r.sentiment <;> simp <;> omega

/-! ## Claim theorems -/

/-- Claim C5: for every family of per-query discovery result lists, the
merged candidate sequence contains each video id exactly once (count one
for every id present in some query's results, zero otherwise), and the
candidate retained for an id is the first occurrence across the queries
taken in order — first-seen metadata wins. -/
theorem merged_candidates_unique_first_seen
    (perQuery : List (List VideoCandidate)) (i : String) :
    ((mergeQueryResults perQuery).countP (fun d => d.id == i)
        = if perQuery.flatten.any (fun d => d.id == i) then 1 else 0)
    ∧ (mergeQueryResults perQuery).find? (fun d => d.id == i)
        = perQuery.flatten.find? (fun d => d.id == i) :=
  ⟨countP_dedupe _ _, find?_dedupe _ _⟩

/-- Claim C7: the presentation classifier assigns every sentiment string
exactly one of the three labels: positive exactly when the lowercased
string equals "positive" or contains "긍정"; negative exactly when it is
not classified positive and the lowercased string equals "negative" or
contains "부정"; neutral exactly in the remaining case. -/
theorem sentiment_vocabulary_fixed (sentiment : String) :
    (classifySentiment sentiment = SentimentLabel.positive
      ↔ (strToLower sentiment == "positive"
          || strIncludes (strToLower sentiment) "긍정") = true)
    ∧ (classifySentiment sentiment = SentimentLabel.negative
      ↔ (strToLower sentiment == "positive"
          || strIncludes (strToLower sentiment) "긍정") = false
        ∧ (strToLower sentiment == "negative"
          || strIncludes (strToLower sentiment) "부정") = true)
    ∧ (classifySentiment sentiment = SentimentLabel.neutral
      ↔ (strToLower sentiment == "positive"
          || strIncludes (strToLower sentiment) "긍정") = false
        ∧ (strToLower sentiment == "negative"
          || strIncludes (strToLower sentiment) "부정") = false) := by
  unfold classifySentiment
  cases h1 : (strToLower sentiment == "positive"
      || strIncludes (strToLower sentiment) "긍정") <;>
    cases h2 : (strToLower sentiment == "negative"
      || strIncludes (strToLower sentiment) "부정") <;>
    simp [h1, h2]

/-- Claim C9: the poll interval is a fixed 3000 milliseconds, polling is
active exactly while the observed status is pending or running, and in
any sequence of observed statuses every observation that is followed by
a further fetch was non-terminal — no fetch ever follows an observed
completed or failed status. -/
theorem polling_fixed_interval_stops_at_terminal (statuses : List JobStatus) :
    pollIntervalMs = 3000
    ∧ (∀ s : JobStatus, shouldPoll s = true
        ↔ (s = JobStatus.pending ∨ s = JobStatus.running))
    ∧ (∀ i : Nat, i + 1 < (observedStatuses statuses).length →
        shouldPoll ((observedStatuses statuses).getD i JobStatus.completed)
          = true) := by
  refine ⟨rfl, ?_, ?_⟩
  · intro s
    cases s <;> simp [shouldPoll]
  · induction statuses with
    | nil =>
      intro i h
      simp [observedStatuses] at h
    | cons s rest ih =>
      intro i h
      rw [observedStatuses] at h ⊢
      by_cases hs : shouldPoll s = true
      · rw [if_pos hs] at h ⊢
        cases i with
        | zero => simpa using hs
        | succ n =>
          rw [List.getD_cons_succ]
          exact ih n (by simpa using h)
      · rw [if_neg hs] at h
        simp at h

/-- Claim C9 witness: with server statuses pending, running, completed the
poller's first observation is non-terminal, by the theorem at a concrete
input. -/
theorem polling_fixed_interval_stops_at_terminal_witness :
    shouldPoll ((observedStatuses
        [JobStatus.pending, JobStatus.running, JobStatus.completed]).getD 0
        JobStatus.completed) = true :=
  (polling_fixed_interval_stops_at_terminal
    [JobStatus.pending, JobStatus.running, JobStatus.completed]).2.2 0
    (by decide)

/-- Claim C10: the presentation-layer aggregation puts every result in
exactly one bucket, so the three bucket counts sum to the number of
results; every pie-chart entry has a nonzero value and a label's entry is
present exactly when its bucket count is nonzero. -/
theorem sentiment_aggregation_partitions (results : List JobResult) :
    ((sentimentStats results).positive + (sentimentStats results).negative
        + (sentimentStats results).neutral = results.length)
    ∧ (∀ d ∈ pieData (sentimentStats results), 0 < d.value)
    ∧ (("Positive" ∈ (pieData (sentimentStats results)).map PieDatum.name
          ↔ 0 < (sentimentStats results).positive)
        ∧ ("Neutral" ∈ (pieData (sentimentStats results)).map PieDatum.name
          ↔ 0 < (sentimentStats results).neutral)
        ∧ ("Negative" ∈ (pieData (sentimentStats results)).map PieDatum.name
          ↔ 0 < (sentimentStats results).negative)) := by
  refine ⟨?_, ?_, ?_⟩
  · simpa using sentimentStats_foldl_sum results ⟨0, 0, 0⟩
  · intro d hd
    have := List.of_mem_filter hd
    simpa using this
  · exact pieData_names (sentimentStats results)

/-- Claim C10 witness: on a concrete result list the pie entries are all
nonzero, by the theorem at a concrete input. -/
theorem sentiment_aggregation_partitions_witness :
    0 < (PieDatum.mk "Positive" 1 "#10b981").value :=
  (sentiment_aggregation_partitions
    [⟨1, "j", "v", "t", "c", "positive", "", "", ""⟩]).2.1
    ⟨"Positive", 1, "#10b981"⟩ (by decide)

/-- Claim C8: the POST bodies built by the api client are unchanged when
the date range, region code and subtitles toggle of the form differ (and
no max_videos_to_transcribe field exists anywhere in the client): the
request carries only company, model, search_queries, skip_transcription
and max_videos (resp. model_key, skip_transcription, max_videos), so the
remaining options of the claim are not carried to the orchestrator. -/
theorem submission_drops_filter_options (f g : NewAnalysisForm)
    (hk : f.selectedModel = g.selectedModel)
    (hc : f.customCompany = g.customCompany)
    (hm : f.customModel = g.customModel)
    (hq : f.customQueries = g.customQueries)
    (hs : f.skipTranscription = g.skipTranscription)
    (hv : f.maxVideos = g.maxVideos) :
    submitCustomBody f = submitCustomBody g
    ∧ submitPredefinedBody f = submitPredefinedBody g := by
  unfold submitCustomBody submitPredefinedBody analyzeCustomBody
    analyzePredefinedBody
  rw [hk, hc, hm, hq, hs, hv]
  exact ⟨rfl, rfl⟩

/-- Claim C8 witness: two concrete form states that differ in date range,
region code and subtitles toggle produce identical request bodies, by the
theorem at a concrete input. -/
theorem submission_drops_filter_options_witness :
    formA.dateFrom ≠ formB.dateFrom
    ∧ formA.regionCode ≠ formB.regionCode
    ∧ formA.useExistingSubtitles ≠ formB.useExistingSubtitles
    ∧ submitCustomBody formA = submitCustomBody formB
    ∧ submitPredefinedBody formA = submitPredefinedBody formB :=
  ⟨by decide, by decide, by decide,
    (submission_drops_filter_options formA formB rfl rfl rfl rfl rfl rfl).1,
    (submission_drops_filter_options formA formB rfl rfl rfl rfl rfl rfl).2⟩

/-- Claim C1 counterexample: in a concrete run with one discovered video,
transcription enabled and max_videos_to_transcribe = 1, the state observed
right after the transcription stage has videos_transcribed = 1 while
videos_analyzed is still 0, so videos_transcribed ≤ min(videos_analyzed,
max_videos_to_transcribe) fails at an observable point of the lifecycle. -/
theorem counters_invariant_fails_mid_run :
    ¬ (∀ s ∈ runJob "j1" ["q"] cOpts cEnv,
        s.videosTranscribed ≤ min s.videosAnalyzed cOpts.maxVideosToTranscribe) := by
  decide

/-- Claim C1 (amended): at every observable state of a run,
videos_analyzed ≤ videos_found and videos_transcribed ≤
max_videos_to_transcribe; the full bound videos_transcribed ≤
min(videos_analyzed, max_videos_to_transcribe) holds in the final state
of every run. -/
theorem counters_invariant (id : String) (queries : List String)
    (opts : PipelineOptions) (env : PipelineEnv) :
    (∀ s ∈ runJob id queries opts env,
        s.videosAnalyzed ≤ s.videosFound
        ∧ s.videosTranscribed ≤ opts.maxVideosToTranscribe)
    ∧ (finalJob id queries opts env).videosTranscribed
        ≤ min (finalJob id queries opts env).videosAnalyzed
            opts.maxVideosToTranscribe := by
  have hcle := transcribeStage_countP_le opts env.video
    (discoverVideos env opts queries)
  have hlen := transcribeStage_length opts env.video
    (discoverVideos env opts queries)
  have hcnt : (transcribeStage opts env.video
        (discoverVideos env opts queries)).countP
        (fun t => t.source != TranscriptSource.none)
      ≤ (transcribeStage opts env.video
        (discoverVideos env opts queries)).length :=
    List.countP_le_length _
  have halen := analyzeStage_length env.video (discoverVideos env opts queries)
    (transcribeStage opts env.video (discoverVideos env opts queries))
  constructor
  · intro s hs
    simp only [runJob, pipelineTrace] at hs
    split at hs <;>
      simp only [List.mem_cons, List.not_mem_nil, or_false] at hs
    · rcases hs with rfl | rfl | rfl <;> exact ⟨Nat.le_refl 0, Nat.zero_le _⟩
    · rcases hs with rfl | rfl | rfl | rfl | rfl | rfl | rfl <;>
        refine ⟨?_, ?_⟩ <;>
        simp only [freshJob] <;>
        first
          | exact Nat.le_refl 0
          | exact Nat.zero_le _
          | exact hcle
          | omega
  · simp only [finalJob, runJob, pipelineTrace]
    split
    · simp [freshJob, List.getLastD_cons, List.getLastD_nil]
    · simp only [List.getLastD_cons, List.getLastD_nil, freshJob]
      omega

/-- Claim C1 witness: the amended invariant instantiated on a concrete
run at a concrete observable state. -/
theorem counters_invariant_witness :
    (freshJob "w1").videosAnalyzed ≤ (freshJob "w1").videosFound
    ∧ (freshJob "w1").videosTranscribed ≤ cOpts.maxVideosToTranscribe :=
  (counters_invariant "w1" ["q"] cOpts cEnv).1 (freshJob "w1") (by decide)

/-- Claim C2: re-invoking the pipeline on a job whose status is completed
or failed is an explicit error — the pipeline never runs again, so no
stage mutates the terminal job's counters or error field; and in any run
from a fresh submission the output artifact reference and the error field
are unset on every observable state before the last, so the final values
are written exactly once, by the terminal transition itself. -/
theorem terminal_state_immutable (j : Job) (queries : List String)
    (opts : PipelineOptions) (env : PipelineEnv)
    (hterm : j.status = JobStatus.completed ∨ j.status = JobStatus.failed) :
    startPipeline j queries opts env
      = Except.error "job already in a terminal state"
    ∧ (∀ id s, s ∈ (runJob id queries opts env).dropLast →
        s.reportFilename = Option.none ∧ s.error = Option.none) := by
  constructor
  · unfold startPipeline Job.isTerminal
    rcases hterm with h | h <;> simp [h]
  · intro id s hs
    simp only [runJob, pipelineTrace] at hs
    split at hs <;>
      simp only [List.dropLast, List.mem_cons, List.not_mem_nil, or_false] at hs
    · rcases hs with rfl | rfl <;> simp [freshJob]
    · rcases hs with rfl | rfl | rfl | rfl | rfl | rfl <;> simp [freshJob]

/-- Claim C2 witness: the theorem instantiated on a concrete completed
job. -/
theorem terminal_state_immutable_witness :
    startPipeline doneJob ["q"] cOpts emptyEnv
      = Except.error "job already in a terminal state" :=
  (terminal_state_immutable doneJob ["q"] cOpts emptyEnv (Or.inl rfl)).1

/-- Claim C3: when discovery yields zero videos across all queries the
run ends failed with videos_found = 0, a non-empty error message, no
comment, transcription or analysis work, and no artifact; and one query
that succeeds with results keeps the stage from failing even when every
other query fails — the run then completes. -/
theorem zero_discovery_fails_job (id : String) (queries : List String)
    (opts : PipelineOptions) (env : PipelineEnv) :
    (discoverVideos env opts queries = [] →
      (finalJob id queries opts env).status = JobStatus.failed
      ∧ (finalJob id queries opts env).videosFound = 0
      ∧ (∃ msg, (finalJob id queries opts env).error = some msg ∧ msg ≠ "")
      ∧ (finalJob id queries opts env).commentsCollected = 0
      ∧ (finalJob id queries opts env).videosAnalyzed = 0
      ∧ (finalJob id queries opts env).videosTranscribed = 0
      ∧ (finalJob id queries opts env).reportFilename = Option.none)
    ∧ (∀ q vs, q ∈ queries → env.search q = Except.ok vs → vs ≠ [] →
        opts.maxVideos ≠ 0 →
        (finalJob id queries opts env).status = JobStatus.completed) := by
  constructor
  · intro h
    have hfin : finalJob id queries opts env
        = { freshJob id with
            status := JobStatus.failed,
            progressMessage := "Failed: no videos found",
            error := some "No videos found for any search query" } := by
      unfold finalJob runJob pipelineTrace
      rw [h]
      rfl
    rw [hfin]
    exact ⟨rfl, rfl, ⟨"No videos found for any search query", rfl, by decide⟩,
      rfl, rfl, rfl, rfl⟩
  · intro q vs hq hok hne hmax
    apply finalJob_status_of_nonempty
    intro hnil
    unfold discoverVideos mergeQueryResults at hnil
    rw [dedupe_eq_nil_iff, List.flatten_eq_nil_iff] at hnil
    have hmem : (vs.take opts.maxVideos) ∈ discoveredPerQuery env opts queries := by
      unfold discoveredPerQuery
      refine List.mem_map.mpr ⟨q, hq, ?_⟩
      rw [hok]
    have htake := hnil _ hmem
    rw [List.take_eq_nil_iff] at htake
    rcases htake with h | h
    · exact hmax h
    · exact hne h

/-- Claim C3 witness: the theorem instantiated on a concrete run where
every query fails (job ends failed) and on a concrete run with one
successful query (job completes). -/
theorem zero_discovery_fails_job_witness :
    (finalJob "w3" ["q1", "q2"] cOpts emptyEnv).status = JobStatus.failed
    ∧ (finalJob "w3b" ["q"] cOpts cEnv).status = JobStatus.completed :=
  ⟨((zero_discovery_fails_job "w3" ["q1", "q2"] cOpts emptyEnv).1 (by decide)).1,
    (zero_discovery_fails_job "w3b" ["q"] cOpts cEnv).2 "q" [cVideo]
      (by decide) rfl (by decide) (by decide)⟩

/-- Claim C4: a video selected for transcription whose transcription
attempt fails at some step is degraded to the source-none transcript, its
analysis record is still produced with comments-only provenance, and the
job is not failed by it: the run completes. -/
theorem transcription_failure_degrades (id : String) (queries : List String)
    (opts : PipelineOptions) (env : PipelineEnv) (k : Nat)
    (hk : k < (discoverVideos env opts queries).length)
    (hcap : k < opts.maxVideosToTranscribe)
    (hskip : opts.skipTranscription = false)
    (hfail : transcriptionAttemptFails
      (env.video ((discoverVideos env opts queries).get ⟨k, hk⟩).id)
      opts.useExistingSubtitles) :
    (transcribeStage opts env.video (discoverVideos env opts queries)).get
        ⟨k, by rw [transcribeStage_length]; exact hk⟩ = noTranscript
    ∧ ((analyzeStage env.video (discoverVideos env opts queries)
          (transcribeStage opts env.video
            (discoverVideos env opts queries))).get
        ⟨k, by rw [analyzeStage_length, transcribeStage_length,
          Nat.min_self]; exact hk⟩).provenance = Provenance.commentsOnly
    ∧ (finalJob id queries opts env).status = JobStatus.completed := by
  have h1 : (transcribeStage opts env.video
      (discoverVideos env opts queries)).get
      ⟨k, by rw [transcribeStage_length]; exact hk⟩ = noTranscript := by
    rw [List.get_eq_getElem]
    simp only [transcribeStage, hskip, Bool.false_eq_true, if_false]
    rw [List.getElem_append_left (by simp; omega), List.getElem_map,
      List.getElem_take]
    exact transcribeVideo_of_fails _ _ hfail
  refine ⟨h1, ?_, ?_⟩
  · rw [List.get_eq_getElem]
    simp only [analyzeStage]
    rw [List.getElem_map, List.getElem_zip]
    rw [List.get_eq_getElem] at h1
    rw [h1]
    exact analyzeVideo_provenance_noTranscript _ _
  · exact finalJob_status_of_nonempty id queries opts env
      (List.length_pos.mp (by omega))

/-- Claim C4 witness: the degradation theorem instantiated on a concrete
run whose only discovered video has a caption miss and a failing audio
download. -/
theorem transcription_failure_degrades_witness :
    (transcribeStage cOpts cFailEnv.video
        (discoverVideos cFailEnv cOpts ["q"])).get ⟨0, by decide⟩ = noTranscript
    ∧ (finalJob "w4" ["q"] cOpts cFailEnv).status = JobStatus.completed := by
  have h := transcription_failure_degrades "w4" ["q"] cOpts cFailEnv 0
    (by decide) (by decide) rfl ⟨Or.inr rfl, Or.inl ⟨"download failed", rfl⟩⟩
  exact ⟨h.1, h.2.2⟩

/-- Claim C6: along the observable Job states of one run the polled
counters videos_found, videos_analyzed and videos_transcribed never
decrease from one state to the next, and every state produced after the
run starts (status no longer pending) carries a non-empty human-readable
progress message alongside the counters. -/
theorem poller_counters_monotone (id : String) (queries : List String)
    (opts : PipelineOptions) (env : PipelineEnv) :
    List.Chain' countersMono (runJob id queries opts env)
    ∧ ∀ s ∈ runJob id queries opts env,
        s.status ≠ JobStatus.pending → s.progressMessage ≠ "" := by
  constructor
  · simp only [runJob, pipelineTrace]
    split <;> simp [List.chain'_cons, countersMono, freshJob]
  · intro s hs
    simp only [runJob, pipelineTrace] at hs
    split at hs <;>
      simp only [List.mem_cons, List.not_mem_nil, or_false] at hs
    · rcases hs with rfl | rfl | rfl
      · intro hp; exact absurd rfl hp
      · intro _; simp
      · intro _; simp
    · rcases hs with rfl | rfl | rfl | rfl | rfl | rfl | rfl
      · intro hp; exact absurd rfl hp
      all_goals intro _; simp

/-- Claim C6 witness: in a concrete run the state observed right after
the run starts is non-pending and carries a non-empty progress message,
by the theorem at a concrete input. -/
theorem poller_counters_monotone_witness :
    ((runJob "w6" ["q"] cOpts cEnv).getD 1 (freshJob "w6")).progressMessage
      ≠ "" :=
  (poller_counters_monotone "w6" ["q"] cOpts cEnv).2
    ((runJob "w6" ["q"] cOpts cEnv).getD 1 (freshJob "w6"))
    (by decide) (by decide)

end YTA
